import Mathlib

/-!
# Verification of the event-recommendation core

Shallow embedding of `src/index.js`: the Haversine distance function
`calculateDistance` and the recommender `getRecommendedEvents`.

Modelling conventions:
* IEEE-754 doubles are idealised as real numbers, except that the special
  values `NaN`, `+Infinity` and `-Infinity` are represented explicitly by the
  `JSNum` type, with the usual propagation rules of JS arithmetic.
  Signed zeros and overflow to infinity are not modelled.
* A JS value that may or may not be a number (`typeof x !== "number"`)
  is modelled by `JSVal`: either a number, or `undef`, which stands for any
  non-number value (`undefined`, a string, `null`, an object, ...).
* The point objects handed to `calculateDistance` are modelled by `JSObj`,
  a record with the four field names that actually occur in the source
  (`lat`, `lng`, `latitude`, `longitude`); a field that a given object
  literal does not set holds `JSVal.undef`, exactly as property access on
  the corresponding JS object yields `undefined`.
* Event ids and categories are modelled as natural numbers.
-/

/-- A JS number: a finite double (idealised as a real), `NaN`, or `±Infinity`. -/
inductive JSNum where
  | fin (x : ℝ)
  | nan
  | inf
  | ninf

namespace JSNum

/-- JS addition on numbers. -/
noncomputable def add : JSNum → JSNum → JSNum
  | nan, _ => nan
  | _, nan => nan
  | fin a, fin b => fin (a + b)
  | inf, ninf => nan
  | ninf, inf => nan
  | inf, _ => inf
  | _, inf => inf
  | ninf, _ => ninf
  | _, ninf => ninf

/-- JS subtraction on numbers. -/
noncomputable def sub : JSNum → JSNum → JSNum
  | nan, _ => nan
  | _, nan => nan
  | fin a, fin b => fin (a - b)
  | inf, inf => nan
  | ninf, ninf => nan
  | inf, _ => inf
  | ninf, _ => ninf
  | _, inf => ninf
  | _, ninf => inf

/-- JS multiplication on numbers (`∞ · 0 = NaN`). -/
noncomputable def mul : JSNum → JSNum → JSNum
  | nan, _ => nan
  | _, nan => nan
  | fin a, fin b => fin (a * b)
  | inf, inf => inf
  | inf, ninf => ninf
  | ninf, inf => ninf
  | ninf, ninf => inf
  | inf, fin b => if b = 0 then nan else if 0 < b then inf else ninf
  | fin a, inf => if a = 0 then nan else if 0 < a then inf else ninf
  | ninf, fin b => if b = 0 then nan else if 0 < b then ninf else inf
  | fin a, ninf => if a = 0 then nan else if 0 < a then ninf else inf

/-- JS division on numbers (division by zero gives `±∞` or `NaN`;
signed zeros are not modelled, a zero numerator over zero gives `NaN`). -/
noncomputable def div : JSNum → JSNum → JSNum
  | nan, _ => nan
  | _, nan => nan
  | fin a, fin b =>
      if b = 0 then (if a = 0 then nan else if 0 < a then inf else ninf)
      else fin (a / b)
  | inf, fin b => if 0 ≤ b then inf else ninf
  | ninf, fin b => if 0 ≤ b then ninf else inf
  | fin _, inf => fin 0
  | fin _, ninf => fin 0
  | inf, _ => nan
  | ninf, _ => nan

/-- JS `Math.sin` (`sin(±∞) = NaN`). -/
noncomputable def sinJ : JSNum → JSNum
  | fin x => fin (Real.sin x)
  | _ => nan

/-- JS `Math.cos` (`cos(±∞) = NaN`). -/
noncomputable def cosJ : JSNum → JSNum
  | fin x => fin (Real.cos x)
  | _ => nan

/-- JS `Math.sqrt` (`sqrt` of a negative number or of `-∞` is `NaN`). -/
noncomputable def sqrtJ : JSNum → JSNum
  | fin x => if x < 0 then nan else fin (Real.sqrt x)
  | nan => nan
  | inf => inf
  | ninf => nan

end JSNum

/-- The mathematical two-argument arctangent, as computed by `Math.atan2 y x`
on finite arguments (the JS convention `atan2 0 0 = 0`; signed zeros are not
modelled). -/
noncomputable def atan2R (y x : ℝ) : ℝ :=
  if 0 < x then Real.arctan (y / x)
  else if x < 0 then
    (if 0 ≤ y then Real.arctan (y / x) + Real.pi else Real.arctan (y / x) - Real.pi)
  else if 0 < y then Real.pi / 2
  else if y < 0 then -(Real.pi / 2)
  else 0

namespace JSNum

/-- JS `Math.atan2` on general JS numbers. -/
noncomputable def atan2J : JSNum → JSNum → JSNum
  | nan, _ => nan
  | _, nan => nan
  | inf, inf => fin (Real.pi / 4)
  | inf, ninf => fin (3 * Real.pi / 4)
  | inf, fin _ => fin (Real.pi / 2)
  | ninf, inf => fin (-(Real.pi / 4))
  | ninf, ninf => fin (-(3 * Real.pi / 4))
  | ninf, fin _ => fin (-(Real.pi / 2))
  | fin _, inf => fin 0
  | fin y, ninf => if 0 ≤ y then fin Real.pi else fin (-Real.pi)
  | fin y, fin x => fin (atan2R y x)

end JSNum

/-- A loosely-typed JS value as used for coordinates: a number, or `undef`
standing for any value whose `typeof` is not `"number"`. -/
inductive JSVal where
  | num (n : JSNum)
  | undef

namespace JSVal

/-- The test `typeof v === "number"`.  Note that in JS both `NaN` and
`±Infinity` have `typeof` `"number"`. -/
def isNumber : JSVal → Bool
  | num _ => true
  | undef => false

/-- Numeric coercion of a value already known (or assumed) to be used as a
number; `undefined` coerces to `NaN`. -/
def toNum : JSVal → JSNum
  | num n => n
  | undef => JSNum.nan

end JSVal

/-- A point object as passed to `calculateDistance`.  The source manipulates
two different shapes — `{lat, lng}` literals (the documented argument format)
and the `{latitude, longitude}` literals built inside `getRecommendedEvents` —
so the model carries all four field names; fields a literal does not set hold
`JSVal.undef`, as JS property access on the object would yield `undefined`.
Fields in order: `lat`, `lng`, `latitude`, `longitude`. -/
structure JSObj where
  lat : JSVal
  lng : JSVal
  latitude : JSVal
  longitude : JSVal

/-- The object literal `{lat, lng}` with numeric coordinates — the format
documented for `calculateDistance`. -/
def latLngObj (la ln : JSNum) : JSObj :=
  ⟨JSVal.num la, JSVal.num ln, JSVal.undef, JSVal.undef⟩

/-- The object literal `{latitude: …, longitude: …}` built by
`getRecommendedEvents` before calling `calculateDistance`
(its `lat` and `lng` properties are `undefined`). -/
def latitudeLongitudeObj (la ln : JSVal) : JSObj :=
  ⟨JSVal.undef, JSVal.undef, la, ln⟩

/-- Degrees-to-radians as written in the source: `(x * Math.PI) / 180`. -/
noncomputable def degToRad (n : JSNum) : JSNum :=
  JSNum.div (JSNum.mul n (JSNum.fin Real.pi)) (JSNum.fin 180)

/-- Embedding of `calculateDistance(point1, point2)` from `src/index.js`
lines 7–42: guard non-number coordinates (returning `0`), then the Haversine
formula with Earth radius 6371 km. -/
noncomputable def calculateDistance (point1 point2 : JSObj) : JSNum :=
  if !point1.lat.isNumber || !point1.lng.isNumber
      || !point2.lat.isNumber || !point2.lng.isNumber then
    JSNum.fin 0
  else
    let latitude1Radians := degToRad point1.lat.toNum
    let latitude2Radians := degToRad point2.lat.toNum
    let differenceInLatitude := JSNum.sub latitude2Radians latitude1Radians
    let longitude1Radians := degToRad point1.lng.toNum
    let longitude2Radians := degToRad point2.lng.toNum
    let differenceInLongitude := JSNum.sub longitude2Radians longitude1Radians
    let a :=
      JSNum.add
        (JSNum.mul (JSNum.sinJ (JSNum.div differenceInLatitude (JSNum.fin 2)))
          (JSNum.sinJ (JSNum.div differenceInLatitude (JSNum.fin 2))))
        (JSNum.mul
          (JSNum.mul (JSNum.cosJ latitude1Radians) (JSNum.cosJ latitude2Radians))
          (JSNum.mul (JSNum.sinJ (JSNum.div differenceInLongitude (JSNum.fin 2)))
            (JSNum.sinJ (JSNum.div differenceInLongitude (JSNum.fin 2)))))
    let c := JSNum.mul (JSNum.fin 2)
      (JSNum.atan2J (JSNum.sqrtJ a) (JSNum.sqrtJ (JSNum.sub (JSNum.fin 1) a)))
    JSNum.mul (JSNum.fin 6371) c

/-- Modelled from the spec (§4.1): the Geodistance operation — the Haversine
great-circle distance in kilometres between two points given in decimal
degrees, with Earth radius 6371 km.  This is the spec-side reference
definition used to compare the recommender's proximity subscore against the
distance the spec prescribes. -/
noncomputable def geodistanceSpec (lat1 lng1 lat2 lng2 : ℝ) : ℝ :=
  let lat1Rad := lat1 * Real.pi / 180
  let lat2Rad := lat2 * Real.pi / 180
  let lng1Rad := lng1 * Real.pi / 180
  let lng2Rad := lng2 * Real.pi / 180
  let dLat := lat2Rad - lat1Rad
  let dLon := lng2Rad - lng1Rad
  let a := Real.sin (dLat / 2) ^ 2
    + Real.cos lat1Rad * Real.cos lat2Rad * Real.sin (dLon / 2) ^ 2
  let c := 2 * atan2R (Real.sqrt a) (Real.sqrt (1 - a))
  6371 * c

/-- The user profile consumed by `getRecommendedEvents`; every field the
source dereferences behind a truthiness / `undefined` check is optional. -/
structure User where
  attendedEvents : Option (List ℕ)
  preferences : Option (List ℕ)
  location : Option JSObj

/-- A candidate event. `popularity` is modelled as an optional real
(`undefined` ↦ `none`). -/
structure Event where
  id : ℕ
  categories : Option (List ℕ)
  location : Option JSObj
  popularity : Option ℝ

/-- The similarity index: a sparse mapping from event id to the list of
similar event ids; an absent key is `none`. -/
def EventSimilarity : Type := ℕ → Option (List ℕ)

/-- Weight of the attendance-similarity factor (source constant). -/
def WEIGHAGE_1 : ℝ := 0.35

/-- Weight of the preference-match factor (source constant). -/
def WEIGHAGE_2 : ℝ := 0.25

/-- Weight shared by the proximity and popularity factors (source constant). -/
def WEIGHAGE_3 : ℝ := 0.20

/-- Factor 1 of the score (source lines 82–103): content-based similarity to
attended events.  The `forEach` loop accumulating `similarityScore` and
`maxSimilarityScore` is embedded as a `foldl` over the attended list carrying
the pair (similarityScore, maxSimilarityScore). -/
noncomputable def similarityFactor (user : User) (eventSimilarity : EventSimilarity)
    (event : Event) : ℝ :=
  match user.attendedEvents with
  | none => 0
  | some attendedEvents =>
    if 0 < attendedEvents.length then
      let counts := attendedEvents.foldl
        (fun (acc : ℕ × ℕ) attendedEventId =>
          match eventSimilarity attendedEventId with
          | none => acc
          | some similarList =>
            ((if event.id ∈ similarList then acc.1 + 1 else acc.1), acc.2 + 1))
        (0, 0)
      if 0 < counts.2 then ((counts.1 : ℝ) / (counts.2 : ℝ)) * WEIGHAGE_1 else 0
    else 0

/-- Factor 2 of the score (source lines 106–118): user-preference match. -/
noncomputable def preferenceFactor (user : User) (event : Event) : ℝ :=
  match user.preferences, event.categories with
  | some preferences, some categories =>
    if 0 < preferences.length then
      let preferenceMatchCount :=
        (categories.filter (fun category => decide (category ∈ preferences))).length
      let maxPossibleMatches := min preferences.length categories.length
      if 0 < maxPossibleMatches then
        ((preferenceMatchCount : ℝ) / (maxPossibleMatches : ℝ)) * WEIGHAGE_2
      else 0
    else 0
  | _, _ => 0

/-- Extract the real value of a finite JS number.  At the only place this is
used (the proximity factor) the number is provably `JSNum.fin 0`, so the
defaults for the non-finite constructors are never exercised. -/
noncomputable def jsToReal : JSNum → ℝ
  | JSNum.fin x => x
  | _ => 0

/-- Factor 3 of the score (source lines 121–138): geographic proximity.
The source remaps both locations to `{latitude, longitude}` literals and
hands those to `calculateDistance` (whose parameters are read as
`.lat`/`.lng`), then applies exponential decay to the returned distance. -/
noncomputable def proximityFactor (user : User) (event : Event) : ℝ :=
  match user.location, event.location with
  | some userLoc, some eventLoc =>
    let userLocation := latitudeLongitudeObj userLoc.lat userLoc.lng
    let eventLocation := latitudeLongitudeObj eventLoc.lat eventLoc.lng
    let distance := calculateDistance userLocation eventLocation
    Real.exp (-(jsToReal distance) / 100) * WEIGHAGE_3
  | _, _ => 0

/-- Factor 4 of the score (source lines 141–143): popularity. -/
noncomputable def popularityFactor (event : Event) : ℝ :=
  match event.popularity with
  | some popularity => popularity * WEIGHAGE_3
  | none => 0

/-- The total score accumulated for one candidate event: `score` starts at 0
and each applicable factor is added in source order. -/
noncomputable def calculateScore (user : User) (eventSimilarity : EventSimilarity)
    (event : Event) : ℝ :=
  similarityFactor user eventSimilarity event + preferenceFactor user event
    + proximityFactor user event + popularityFactor event

/-- The comparison realised by the sort comparator
`(a, b) => b.score - a.score`: the sorted order keeps `a` before `b` exactly
when the comparator is nonpositive, i.e. when `b.score ≤ a.score`. -/
noncomputable def scoreLE (a b : Event × ℝ) : Bool :=
  decide (b.2 ≤ a.2)

/-- `Array.prototype.slice(0, limit)` of ECMAScript: a negative end index
counts from the end of the array; a nonnegative one is clamped to the
length. -/
def jsSlice0 {α : Type} (l : List α) (limit : ℤ) : List α :=
  if limit < 0 then l.take ((l.length : ℤ) + limit).toNat
  else l.take limit.toNat

/-- Embedding of `getRecommendedEvents(user, events, eventSimilarity, limit)`
from `src/index.js` lines 51–157.  Notes:
* the source also builds an `eventsMap` from id to event that is never read
  afterwards (dead code), so it is not modelled;
* `eventScores.sort((a, b) => b.score - a.score)` keeps `a` before `b`
  exactly when `b.score ≤ a.score` and is stable (ES2019 requires
  `Array.prototype.sort` to be stable), which is `mergeSort` with the
  comparison `scoreLE`. -/
noncomputable def getRecommendedEvents (user : User) (events : Option (List Event))
    (eventSimilarity : EventSimilarity) (limit : ℤ := 5) : List Event :=
  match events with
  | none => []
  | some evs =>
    if evs.length = 0 then []
    else
      let attendedEventsSet := user.attendedEvents.getD []
      let eventScores := evs.filterMap (fun event =>
        if event.id ∈ attendedEventsSet then none
        else some (event, calculateScore user eventSimilarity event))
      let sorted := eventScores.mergeSort scoreLE
      (jsSlice0 sorted limit).map Prod.fst

/-- The set of already-attended event ids (empty when the field is absent). -/
def attendedList (user : User) : List ℕ :=
  user.attendedEvents.getD []

/-- The candidate events: input events the user has not attended, in input
order. -/
def nonAttended (user : User) (evs : List Event) : List Event :=
  evs.filter (fun event => !decide (event.id ∈ attendedList user))

/-- An everywhere-absent similarity index. -/
def simNone : EventSimilarity := fun _ => none

/-- A user with every optional field absent. -/
def userEmpty : User := ⟨none, none, none⟩

/-- A bare event with id 1. -/
def eventA : Event := ⟨1, none, none, none⟩

/-- A bare event with id 2. -/
def eventB : Event := ⟨2, none, none, none⟩

/-- A user located at latitude 0, longitude 0 (a proper `{lat, lng}` object). -/
def userAtOrigin : User := ⟨none, none, some (latLngObj (JSNum.fin 0) (JSNum.fin 0))⟩

/-- An event located at latitude 0, longitude 90 — a quarter of the Earth's
circumference away from `userAtOrigin`. -/
def eventAtLng90 : Event := ⟨1, none, some (latLngObj (JSNum.fin 0) (JSNum.fin 90)), none⟩

/-- A point whose `lat` property is not a number (e.g. a string). -/
def badLatPoint : JSObj := ⟨JSVal.undef, JSVal.num (JSNum.fin 0), JSVal.undef, JSVal.undef⟩

/-- A point whose `lat` property is the number `NaN`. -/
def nanLatPoint : JSObj := latLngObj JSNum.nan (JSNum.fin 0)

/-- The origin as a proper `{lat, lng}` point. -/
def originPoint : JSObj := latLngObj (JSNum.fin 0) (JSNum.fin 0)

/-- A user who attended events 1 and 2. -/
def userAttended12 : User := ⟨some [1, 2], none, none⟩

/-- A similarity index knowing only event 1, similar to event 5. -/
def simOnly1 : EventSimilarity := fun a => if a = 1 then some [5] else none

/-- A bare event with id 5. -/
def eventC : Event := ⟨5, none, none, none⟩

/-- A user preferring categories 10 and 11. -/
def userPref1011 : User := ⟨none, some [10, 11], none⟩

/-- An event with categories 10 and 12. -/
def eventD : Event := ⟨6, some [10, 12], none, none⟩

namespace JSNum

@[simp] theorem add_fin_fin (a b : ℝ) : add (fin a) (fin b) = fin (a + b) := rfl

@[simp] theorem add_nan_left (x : JSNum) : add nan x = nan := by cases x <;> rfl

@[simp] theorem add_nan_right (x : JSNum) : add x nan = nan := by cases x <;> rfl

@[simp] theorem sub_fin_fin (a b : ℝ) : sub (fin a) (fin b) = fin (a - b) := rfl

@[simp] theorem sub_nan_left (x : JSNum) : sub nan x = nan := by cases x <;> rfl

@[simp] theorem sub_nan_right (x : JSNum) : sub x nan = nan := by cases x <;> rfl

@[simp] theorem mul_fin_fin (a b : ℝ) : mul (fin a) (fin b) = fin (a * b) := rfl

@[simp] theorem mul_nan_left (x : JSNum) : mul nan x = nan := by cases x <;> rfl

@[simp] theorem mul_nan_right (x : JSNum) : mul x nan = nan := by cases x <;> rfl

@[simp] theorem div_fin_fin (a b : ℝ) (h : ¬b = 0) :
    div (fin a) (fin b) = fin (a / b) := by
  simp [div, h]

@[simp] theorem div_nan_left (x : JSNum) : div nan x = nan := by cases x <;> rfl

@[simp] theorem div_nan_right (x : JSNum) : div x nan = nan := by cases x <;> rfl

@[simp] theorem sinJ_fin (x : ℝ) : sinJ (fin x) = fin (Real.sin x) := rfl

@[simp] theorem sinJ_nan : sinJ nan = nan := rfl

@[simp] theorem cosJ_fin (x : ℝ) : cosJ (fin x) = fin (Real.cos x) := rfl

@[simp] theorem cosJ_nan : cosJ nan = nan := rfl

@[simp] theorem sqrtJ_nan : sqrtJ nan = nan := rfl

@[simp] theorem atan2J_fin_fin (y x : ℝ) : atan2J (fin y) (fin x) = fin (atan2R y x) := rfl

@[simp] theorem atan2J_nan_left (x : JSNum) : atan2J nan x = nan := by cases x <;> rfl

@[simp] theorem atan2J_nan_right (x : JSNum) : atan2J x nan = nan := by cases x <;> rfl

end JSNum

/-- On the `{latitude, longitude}` literals built inside `getRecommendedEvents`
the guard of `calculateDistance` always fires (their `lat` and `lng`
properties are `undefined`), so the call returns the sentinel `0`. -/
theorem calculateDistance_latitudeLongitudeObj (a b c d : JSVal) :
    calculateDistance (latitudeLongitudeObj a b) (latitudeLongitudeObj c d) =
      JSNum.fin 0 := rfl

/-- Helper: squared sine is invariant under negating the half-difference. -/
theorem sin_half_diff_sq (x y : ℝ) :
    Real.sin ((x - y) / 2) * Real.sin ((x - y) / 2) =
      Real.sin ((y - x) / 2) * Real.sin ((y - x) / 2) := by
  rw [show (x - y) / 2 = -((y - x) / 2) by ring, Real.sin_neg]
  ring

/-- C9: `calculateDistance` is symmetric on points with finite numeric
coordinates — and in the real-valued idealisation the equality is exact. -/
theorem claimC9_distance_symm (lat1 lng1 lat2 lng2 : ℝ) :
    calculateDistance (latLngObj (JSNum.fin lat1) (JSNum.fin lng1))
        (latLngObj (JSNum.fin lat2) (JSNum.fin lng2)) =
      calculateDistance (latLngObj (JSNum.fin lat2) (JSNum.fin lng2))
        (latLngObj (JSNum.fin lat1) (JSNum.fin lng1)) := by
  simp only [calculateDistance, latLngObj, JSVal.isNumber, JSVal.toNum, degToRad,
    JSNum.mul_fin_fin, JSNum.div_fin_fin, JSNum.sub_fin_fin, JSNum.sinJ_fin,
    JSNum.cosJ_fin, Bool.not_true, Bool.or_self, Bool.or_false, Bool.false_or,
    if_false, ite_false, JSNum.add_fin_fin, JSNum.atan2J_fin_fin,
    OfNat.ofNat_ne_zero, not_false_eq_true]
  rw [sin_half_diff_sq (lat2 * Real.pi / 180) (lat1 * Real.pi / 180),
    sin_half_diff_sq (lng2 * Real.pi / 180) (lng1 * Real.pi / 180),
    mul_comm (Real.cos (lat1 * Real.pi / 180)) (Real.cos (lat2 * Real.pi / 180))]

/-- A `NaN` latitude passes the `typeof`-based guard and propagates through
the whole Haversine computation. -/
theorem calculateDistance_nanLat :
    calculateDistance nanLatPoint originPoint = JSNum.nan := by
  simp [calculateDistance, nanLatPoint, originPoint, latLngObj, JSVal.isNumber,
    JSVal.toNum, degToRad]

/-- If any of the four coordinates is not of number type, the guard fires
and the result is exactly `0`. -/
theorem calculateDistance_guard (point1 point2 : JSObj)
    (h : point1.lat.isNumber = false ∨ point1.lng.isNumber = false
      ∨ point2.lat.isNumber = false ∨ point2.lng.isNumber = false) :
    calculateDistance point1 point2 = JSNum.fin 0 := by
  unfold calculateDistance
  rcases h with h | h | h | h <;> simp [h]

theorem calculateScore_eventA : calculateScore userEmpty simNone eventA = 0 := by
  simp [calculateScore, similarityFactor, preferenceFactor, proximityFactor,
    popularityFactor, userEmpty, simNone, eventA]

theorem calculateScore_eventB : calculateScore userEmpty simNone eventB = 0 := by
  simp [calculateScore, similarityFactor, preferenceFactor, proximityFactor,
    popularityFactor, userEmpty, simNone, eventB]

theorem gre_eval_neg1 :
    getRecommendedEvents userEmpty (some [eventA, eventB]) simNone (-1) = [eventA] := by
  unfold getRecommendedEvents
  simp only [List.length_cons, List.length_nil]
  norm_num
  rw [show (userEmpty.attendedEvents.getD [] : List ℕ) = [] from rfl]
  simp only [List.filterMap_cons, List.filterMap_nil, List.contains_nil,
    Bool.false_eq_true, if_neg, ite_false]
  rw [calculateScore_eventA, calculateScore_eventB]
  rw [List.mergeSort_of_sorted (by simp [scoreLE])]
  simp [jsSlice0]

/-- The score-accumulation pass: filtering out attended events and pairing
each survivor with its score is `map` over the candidate list. -/
theorem filterMap_scored (u : User) (sim : EventSimilarity) (evs : List Event) :
    (evs.filterMap (fun event =>
      if event.id ∈ u.attendedEvents.getD [] then none
      else some (event, calculateScore u sim event))) =
    (nonAttended u evs).map (fun e => (e, calculateScore u sim e)) := by
  induction evs with
  | nil => rfl
  | cons e t ih =>
    by_cases h : e.id ∈ u.attendedEvents.getD []
    · have hfilter : nonAttended u (e :: t) = nonAttended u t := by
        simp [nonAttended, attendedList, List.filter_cons, h]
      rw [List.filterMap_cons, if_pos h, hfilter]
      exact ih
    · have hfilter : nonAttended u (e :: t) = e :: nonAttended u t := by
        simp [nonAttended, attendedList, List.filter_cons, h]
      rw [List.filterMap_cons, if_neg h, hfilter, List.map_cons, ih]

/-- Closed form of `getRecommendedEvents` on a present event list. -/
theorem gre_some_eq (u : User) (sim : EventSimilarity) (lim : ℤ) (evs : List Event) :
    getRecommendedEvents u (some evs) sim lim =
      (jsSlice0 (((nonAttended u evs).map
        (fun e => (e, calculateScore u sim e))).mergeSort scoreLE) lim).map Prod.fst := by
  cases evs with
  | nil => simp [getRecommendedEvents, nonAttended, jsSlice0]
  | cons e t =>
    simp only [getRecommendedEvents]
    rw [if_neg (by simp)]
    rw [filterMap_scored]
/-- The sort comparison is transitive. -/
theorem scoreLE_trans (a b c : Event × ℝ) (hab : scoreLE a b) (hbc : scoreLE b c) :
    scoreLE a c := by
  simp only [scoreLE, decide_eq_true_eq] at hab hbc ⊢
  exact le_trans hbc hab

/-- The sort comparison is total. -/
theorem scoreLE_total (a b : Event × ℝ) : scoreLE a b || scoreLE b a := by
  simp only [scoreLE, Bool.or_eq_true, decide_eq_true_eq]
  exact le_total b.2 a.2

/-- A `slice(0, limit)` result is a sublist of the input. -/
theorem jsSlice0_sublist {α : Type} (l : List α) (lim : ℤ) :
    (jsSlice0 l lim).Sublist l := by
  unfold jsSlice0
  split
  · exact List.take_sublist _ _
  · exact List.take_sublist _ _

/-- Every scored pair carries exactly the score of its event. -/
theorem snd_eq_score {u : User} {sim : EventSimilarity} {evs : List Event}
    {p : Event × ℝ}
    (hp : p ∈ (nonAttended u evs).map (fun e => (e, calculateScore u sim e))) :
    p.2 = calculateScore u sim p.1 := by
  obtain ⟨e, -, rfl⟩ := List.mem_map.1 hp
  rfl

/-- Projecting the scored pairs back to events recovers the candidates. -/
theorem map_fst_scored (u : User) (sim : EventSimilarity) (evs : List Event) :
    ((nonAttended u evs).map (fun e => (e, calculateScore u sim e))).map Prod.fst =
      nonAttended u evs := by
  have hcomp : (Prod.fst ∘ fun e : Event => (e, calculateScore u sim e)) = id := rfl
  rw [List.map_map, hcomp, List.map_id]

/-- C4: for every input, the sequence returned by `getRecommendedEvents`
never contains an event whose id is among the user's attended events; such
events are filtered out before scoring. -/
theorem claimC4_no_attended_in_result (u : User) (events : Option (List Event))
    (sim : EventSimilarity) (lim : ℤ) :
    (getRecommendedEvents u events sim lim).filter
      (fun e => decide (e.id ∈ attendedList u)) = [] := by
  cases events with
  | none => rfl
  | some evs =>
    rw [gre_some_eq, List.filter_eq_nil_iff]
    intro e he
    obtain ⟨p, hp, rfl⟩ := List.mem_map.1 he
    have hp2 := List.mem_mergeSort.1 ((jsSlice0_sublist _ _).subset hp)
    obtain ⟨ev, hev, rfl⟩ := List.mem_map.1 hp2
    have hkeep := List.of_mem_filter hev
    simp only [Bool.not_eq_eq_eq_not, Bool.not_true, decide_eq_false_iff_not] at hkeep
    simp [hkeep]

/-- C5: the returned sequence is sorted by descending score — the score of
each returned event is at least the score of the next one. -/
theorem claimC5_sorted_descending (u : User) (events : Option (List Event))
    (sim : EventSimilarity) (lim : ℤ) :
    List.Chain' (fun a b => calculateScore u sim b ≤ calculateScore u sim a)
      (getRecommendedEvents u events sim lim) := by
  cases events with
  | none => simp [getRecommendedEvents]
  | some evs =>
    rw [gre_some_eq]
    have hsorted :=
      List.sorted_mergeSort scoreLE_trans scoreLE_total
        ((nonAttended u evs).map (fun e => (e, calculateScore u sim e)))
    have hslice := hsorted.sublist (jsSlice0_sublist _ lim)
    have himp : (jsSlice0 (((nonAttended u evs).map
        (fun e => (e, calculateScore u sim e))).mergeSort scoreLE) lim).Pairwise
        (fun p q => calculateScore u sim q.1 ≤ calculateScore u sim p.1) := by
      refine hslice.imp_of_mem ?_
      intro p q hp hq hrel
      have hp2 := snd_eq_score (List.mem_mergeSort.1 ((jsSlice0_sublist _ _).subset hp))
      have hq2 := snd_eq_score (List.mem_mergeSort.1 ((jsSlice0_sublist _ _).subset hq))
      rw [scoreLE, decide_eq_true_eq] at hrel
      rwa [hp2, hq2] at hrel
    rw [List.chain'_map]
    exact himp.chain'

/-- C3 counterexample: with two candidates and `limit = -1` the result is
`[eventA]`, not the empty sequence the claim requires for negative limits. -/
theorem claimC3_counterexample :
    ¬(getRecommendedEvents userEmpty (some [eventA, eventB]) simNone (-1) = []) := by
  rw [gre_eval_neg1]
  simp

/-- C3 amended: `limit = 0` returns the empty sequence; a negative limit
`lim` behaves like `Array.prototype.slice(0, lim)` — it drops the last
`|lim|` sorted candidates, returning `max(candidateCount + lim, 0)` events
(empty only when `|lim| ≥ candidateCount`). -/
theorem claimC3_amended :
    (∀ (u : User) (events : Option (List Event)) (sim : EventSimilarity),
      getRecommendedEvents u events sim 0 = []) ∧
    (∀ (u : User) (evs : List Event) (sim : EventSimilarity) (lim : ℤ), lim < 0 →
      (getRecommendedEvents u (some evs) sim lim).length =
        (((nonAttended u evs).length : ℤ) + lim).toNat) := by
  constructor
  · intro u events sim
    cases events with
    | none => rfl
    | some evs =>
      rw [gre_some_eq]
      simp [jsSlice0]
  · intro u evs sim lim hlim
    rw [gre_some_eq, List.length_map]
    unfold jsSlice0
    rw [if_pos hlim, List.length_take, List.length_mergeSort, List.length_map]
    omega

theorem claimC3_witness :
    (-1 : ℤ) < 0 ∧
    (getRecommendedEvents userEmpty (some [eventA, eventB]) simNone (-1)).length =
      (((nonAttended userEmpty [eventA, eventB]).length : ℤ) + (-1)).toNat :=
  ⟨by norm_num, claimC3_amended.2 userEmpty [eventA, eventB] simNone (-1) (by norm_num)⟩

/-- C6 counterexample: with two candidates and `limit = -1` the result has
one element, violating `length ≤ min(limit, candidateCount)` as stated
(whose right-hand side is `-1`). -/
theorem claimC6_counterexample :
    ¬(((getRecommendedEvents userEmpty (some [eventA, eventB]) simNone (-1)).length : ℤ) ≤
      min (-1 : ℤ) ((nonAttended userEmpty [eventA, eventB]).length : ℤ)) := by
  rw [gre_eval_neg1]
  have hna : nonAttended userEmpty [eventA, eventB] = [eventA, eventB] := by
    simp [nonAttended, attendedList, userEmpty]
  rw [hna]
  norm_num

/-- C6 amended: an absent or empty event list yields an empty result; for
every nonnegative limit the result length is at most
`min(limit, candidateCount)`, and when the limit is at least the candidate
count the result is a permutation of all candidates. -/
theorem claimC6_amended :
    (∀ (u : User) (sim : EventSimilarity) (lim : ℤ),
      getRecommendedEvents u none sim lim = [] ∧
      getRecommendedEvents u (some []) sim lim = []) ∧
    (∀ (u : User) (evs : List Event) (sim : EventSimilarity) (lim : ℤ), 0 ≤ lim →
      ((getRecommendedEvents u (some evs) sim lim).length : ℤ) ≤
        min lim ((nonAttended u evs).length : ℤ) ∧
      (((nonAttended u evs).length : ℤ) ≤ lim →
        (getRecommendedEvents u (some evs) sim lim).Perm (nonAttended u evs))) := by
  constructor
  · intro u sim lim
    refine ⟨rfl, ?_⟩
    rw [gre_some_eq]
    simp [nonAttended, jsSlice0]
  · intro u evs sim lim hlim
    constructor
    · rw [gre_some_eq, List.length_map]
      unfold jsSlice0
      rw [if_neg (by omega), List.length_take, List.length_mergeSort, List.length_map]
      omega
    · intro hge
      rw [gre_some_eq]
      unfold jsSlice0
      rw [if_neg (by omega)]
      rw [List.take_of_length_le (by rw [List.length_mergeSort, List.length_map]; omega)]
      have hperm := List.mergeSort_perm
        ((nonAttended u evs).map (fun e => (e, calculateScore u sim e))) scoreLE
      have := List.Perm.map Prod.fst hperm
      rwa [map_fst_scored] at this

theorem claimC6_witness :
    (0 : ℤ) ≤ 5 ∧
    ((getRecommendedEvents userEmpty (some [eventA, eventB]) simNone 5).length : ℤ) ≤
      min (5 : ℤ) ((nonAttended userEmpty [eventA, eventB]).length : ℤ) :=
  ⟨by norm_num, (claimC6_amended.2 userEmpty [eventA, eventB] simNone 5 (by norm_num)).1⟩

/-- C2 counterexample: a `NaN` latitude is not a finite numeric value, yet
`typeof NaN === "number"`, so it passes the guard and the Haversine
computation returns `NaN` — not the `0` the claim requires, and a `NaN`
result at that. -/
theorem claimC2_counterexample :
    calculateDistance nanLatPoint originPoint = JSNum.nan ∧
      JSNum.nan ≠ JSNum.fin 0 :=
  ⟨calculateDistance_nanLat, fun h => JSNum.noConfusion h⟩

/-- C2 amended: the guard tests only the JS type of the coordinates — if any
of the four coordinates is not of number type, the result is exactly `0` (and
no exception is raised, the function being total); a coordinate of number
type that is not finite (such as `NaN`) passes the guard and the formula
propagates it. -/
theorem claimC2_amended (point1 point2 : JSObj)
    (h : point1.lat.isNumber = false ∨ point1.lng.isNumber = false
      ∨ point2.lat.isNumber = false ∨ point2.lng.isNumber = false) :
    calculateDistance point1 point2 = JSNum.fin 0 :=
  calculateDistance_guard point1 point2 h

theorem claimC2_witness :
    (badLatPoint.lat.isNumber = false ∨ badLatPoint.lng.isNumber = false
      ∨ originPoint.lat.isNumber = false ∨ originPoint.lng.isNumber = false) ∧
    calculateDistance badLatPoint originPoint = JSNum.fin 0 :=
  ⟨Or.inl rfl, claimC2_amended badLatPoint originPoint (Or.inl rfl)⟩

/-- The quarter-circumference reference distance: the spec's Geodistance from
(0°, 0°) to (0°, 90°) is a quarter of the Earth's great circle. -/
theorem geodistanceSpec_quarter :
    geodistanceSpec 0 0 0 90 = 6371 * (Real.pi / 2) := by
  have e1 : (0 : ℝ) * Real.pi / 180 = 0 := by ring
  have e2 : (90 : ℝ) * Real.pi / 180 = Real.pi / 2 := by ring
  simp only [geodistanceSpec, e1, e2]
  rw [show ((0 : ℝ) - 0) / 2 = 0 by ring, show ((Real.pi / 2 - 0)) / 2 = Real.pi / 4 by ring]
  rw [Real.sin_zero, Real.cos_zero, Real.sin_pi_div_four]
  rw [show ((Real.sqrt 2 / 2) ^ 2 : ℝ) = Real.sqrt 2 ^ 2 / 4 by ring]
  rw [Real.sq_sqrt (by norm_num : (0:ℝ) ≤ 2)]
  norm_num
  have hpos : 0 < (Real.sqrt 2)⁻¹ := by positivity
  rw [atan2R, if_pos hpos, div_self (ne_of_gt hpos), Real.arctan_one]
  ring

/-- C1 (code bug): with the user at (0°, 0°) and the event at (0°, 90°), the
proximity subscore added by the code is exactly `WEIGHAGE_3 = 0.20`
(because `getRecommendedEvents` hands `{latitude, longitude}` objects to
`calculateDistance`, which reads `.lat`/`.lng`, finds them `undefined`, and
returns the invalid-input sentinel `0`), whereas the subscore the claim
prescribes, `e^(-d/100) * 0.20` with `d` the Geodistance between the two
locations (a quarter of the Earth's circumference), is strictly smaller. -/
theorem claimC1_code_bug :
    proximityFactor userAtOrigin eventAtLng90 = WEIGHAGE_3 ∧
    proximityFactor userAtOrigin eventAtLng90 ≠
      Real.exp (-(geodistanceSpec 0 0 0 90) / 100) * WEIGHAGE_3 := by
  have hfac : proximityFactor userAtOrigin eventAtLng90 = WEIGHAGE_3 := by
    simp [proximityFactor, userAtOrigin, eventAtLng90,
      calculateDistance_latitudeLongitudeObj, jsToReal, Real.exp_zero]
  refine ⟨hfac, ?_⟩
  rw [hfac, geodistanceSpec_quarter]
  intro heq
  have hexp : Real.exp (-(6371 * (Real.pi / 2)) / 100) < 1 := by
    rw [Real.exp_lt_one_iff]
    have hp := Real.pi_pos
    nlinarith
  rw [WEIGHAGE_3] at heq
  nlinarith

/-- The similarity loop in closed form: starting from any accumulator, the
first counter gains the number of attended ids whose similarity entry exists
and contains the candidate id, the second the number of attended ids whose
similarity entry exists. -/
theorem similarity_foldl (sim : EventSimilarity) (eid : ℕ) (att : List ℕ)
    (acc : ℕ × ℕ) :
    (att.foldl (fun (acc : ℕ × ℕ) aid =>
      match sim aid with
      | none => acc
      | some similarList =>
        ((if eid ∈ similarList then acc.1 + 1 else acc.1), acc.2 + 1)) acc) =
    (acc.1 + (att.filter (fun aid =>
        (sim aid).isSome && decide (eid ∈ (sim aid).getD []))).length,
      acc.2 + (att.filter (fun aid => (sim aid).isSome)).length) := by
  induction att generalizing acc with
  | nil => simp
  | cons a t ih =>
    rw [List.foldl_cons]
    cases hsa : sim a with
    | none => simp [List.filter_cons, hsa, ih]
    | some l =>
      by_cases hm : eid ∈ l <;>
        simp [List.filter_cons, hsa, hm, ih, Prod.ext_iff] <;> omega

/-- C7: when the user has a non-empty attended list, the attendance
similarity subscore is `(similar/total) * 0.35`, where `total` counts the
attended ids that have a similarity entry and `similar` counts those of them
whose similar-list contains the candidate's id (ids without an entry count
for neither), and the subscore is 0 when `total = 0`. -/
theorem claimC7_similarity_subscore (u : User) (sim : EventSimilarity) (e : Event)
    (att : List ℕ) (hatt : u.attendedEvents = some att) (hne : att ≠ []) :
    similarityFactor u sim e =
      (if 0 < (att.filter (fun aid => (sim aid).isSome)).length then
        (((att.filter (fun aid =>
            (sim aid).isSome && decide (e.id ∈ (sim aid).getD []))).length : ℝ) /
          ((att.filter (fun aid => (sim aid).isSome)).length : ℝ)) * WEIGHAGE_1
      else 0) := by
  simp only [similarityFactor, hatt]
  rw [if_pos (List.length_pos.2 hne), similarity_foldl]
  simp

theorem claimC7_witness :
    userAttended12.attendedEvents = some [1, 2] ∧ ([1, 2] : List ℕ) ≠ [] ∧
    similarityFactor userAttended12 simOnly1 eventC =
      (if 0 < (([1, 2] : List ℕ).filter (fun aid => (simOnly1 aid).isSome)).length then
        (((([1, 2] : List ℕ).filter (fun aid =>
            (simOnly1 aid).isSome && decide (eventC.id ∈ (simOnly1 aid).getD []))).length : ℝ) /
          ((([1, 2] : List ℕ).filter (fun aid => (simOnly1 aid).isSome)).length : ℝ)) * WEIGHAGE_1
      else 0) :=
  ⟨rfl, by simp,
    claimC7_similarity_subscore userAttended12 simOnly1 eventC [1, 2] rfl (by simp)⟩

/-- C8: when the user has non-empty preferences and the event has a category
list, the preference-match subscore is `(matches/denom) * 0.25` with
`matches` the number of event categories among the preferences and
`denom = min(preferences.length, categories.length)`, and 0 when
`denom = 0`. -/
theorem claimC8_preference_subscore (u : User) (e : Event) (prefs cats : List ℕ)
    (hp : u.preferences = some prefs) (hc : e.categories = some cats)
    (hne : prefs ≠ []) :
    preferenceFactor u e =
      (if 0 < min prefs.length cats.length then
        ((cats.countP (fun c => decide (c ∈ prefs)) : ℝ) /
          ((min prefs.length cats.length : ℕ) : ℝ)) * WEIGHAGE_2
      else 0) := by
  simp only [preferenceFactor, hp, hc]
  rw [if_pos (List.length_pos.2 hne)]
  simp [List.countP_eq_length_filter]

theorem claimC8_witness :
    userPref1011.preferences = some [10, 11] ∧ eventD.categories = some [10, 12] ∧
    ([10, 11] : List ℕ) ≠ [] ∧
    preferenceFactor userPref1011 eventD =
      (if 0 < min ([10, 11] : List ℕ).length ([10, 12] : List ℕ).length then
        ((([10, 12] : List ℕ).countP (fun c => decide (c ∈ ([10, 11] : List ℕ))) : ℝ) /
          ((min ([10, 11] : List ℕ).length ([10, 12] : List ℕ).length : ℕ) : ℝ)) * WEIGHAGE_2
      else 0) :=
  ⟨rfl, rfl, by simp,
    claimC8_preference_subscore userPref1011 eventD [10, 11] [10, 12] rfl rfl (by simp)⟩

/-- Stability transfer: among scored pairs of one fixed score `s`, slicing
the stably sorted list yields a sublist of the original order. -/
theorem slice_filter_stable (L : List (Event × ℝ)) (lim : ℤ) (s : ℝ) :
    ((jsSlice0 (L.mergeSort scoreLE) lim).filter (fun p => decide (p.2 = s))).Sublist
      (L.filter (fun p => decide (p.2 = s))) := by
  have hpair : (L.filter (fun p => decide (p.2 = s))).Pairwise
      (fun a b => scoreLE a b = true) := by
    apply List.pairwise_of_forall_mem_list
    intro a ha b hb
    have ha2 := List.of_mem_filter ha
    have hb2 := List.of_mem_filter hb
    rw [decide_eq_true_eq] at ha2 hb2
    simp [scoreLE, ha2, hb2]
  have hstable :=
    List.sublist_mergeSort scoreLE_trans scoreLE_total hpair (List.filter_sublist L)
  have hself : (L.filter (fun p => decide (p.2 = s))).filter
      (fun p => decide (p.2 = s)) = L.filter (fun p => decide (p.2 = s)) := by
    apply List.filter_eq_self.2
    intro a ha
    exact (List.mem_filter.1 ha).2
  have hsub2 := hstable.filter (fun p => decide (p.2 = s))
  rw [hself] at hsub2
  have hperm := (List.mergeSort_perm L scoreLE).filter (fun p => decide (p.2 = s))
  have heq : (L.mergeSort scoreLE).filter (fun p => decide (p.2 = s)) =
      L.filter (fun p => decide (p.2 = s)) :=
    (hsub2.eq_of_length hperm.length_eq.symm).symm
  have h1 := (jsSlice0_sublist (L.mergeSort scoreLE) lim).filter
    (fun p => decide (p.2 = s))
  rwa [heq] at h1

/-- C10: events of one fixed score value appear in the recommendation in
their input order — the result restricted to any score `s` is a sublist of
the candidate list (which preserves input order) restricted to `s`. -/
theorem claimC10_stable_ties (u : User) (evs : List Event) (sim : EventSimilarity)
    (lim : ℤ) (s : ℝ) :
    ((getRecommendedEvents u (some evs) sim lim).filter
      (fun e => decide (calculateScore u sim e = s))).Sublist
      ((nonAttended u evs).filter (fun e => decide (calculateScore u sim e = s))) := by
  rw [gre_some_eq, List.filter_map]
  have hcongr : (jsSlice0 (((nonAttended u evs).map
        (fun e => (e, calculateScore u sim e))).mergeSort scoreLE) lim).filter
        ((fun e => decide (calculateScore u sim e = s)) ∘ Prod.fst) =
      (jsSlice0 (((nonAttended u evs).map
        (fun e => (e, calculateScore u sim e))).mergeSort scoreLE) lim).filter
        (fun p => decide (p.2 = s)) := by
    apply List.filter_congr
    intro p hp
    have hps := snd_eq_score (List.mem_mergeSort.1 ((jsSlice0_sublist _ _).subset hp))
    simp only [Function.comp]
    rw [hps]
  rw [hcongr]
  have hRHS : (nonAttended u evs).filter (fun e => decide (calculateScore u sim e = s)) =
      (((nonAttended u evs).map (fun e => (e, calculateScore u sim e))).filter
        (fun p => decide (p.2 = s))).map Prod.fst := by
    rw [List.filter_map]
    rw [List.map_map]
    rw [show (Prod.fst ∘ fun e : Event => (e, calculateScore u sim e)) = id from rfl,
      List.map_id]
    rfl
  rw [hRHS]
  exact (slice_filter_stable _ lim s).map Prod.fst
